import Mathlib

/-!
Shallow embedding of the qtshut core (time-expression resolver and
countdown scheduling engine) and verification of its specification
claims.

Conventions of the embedding:
* `DateTime<Local>` instants and `chrono::Duration` spans are modelled as
  `Int` milliseconds.  All deadline arithmetic in the source is plain
  offset arithmetic on a monotonic-consistent wall clock, so a linear
  (fixed-offset, DST-free) timeline is used; on such a timeline
  `Local.from_local_datetime(..).single()` is total, so the source's
  `ok_or_else` guards on it never fire and are dropped.
* `chrono`'s `num_seconds`/`num_hours`/`num_days` truncate toward zero,
  which is `Int.tdiv`.
* `NaiveTime` values are modelled as their second-of-day (`Nat`), and
  `date_naive` of an instant is flooring division by the day length,
  which is `Int`'s `/` (Euclidean = flooring for a positive divisor).
-/

namespace QtShut

/-- Milliseconds in one day. -/
def dayMs : Int := 86400000

/-- `chrono::Duration::num_seconds` on a span in milliseconds:
whole seconds, truncated toward zero. -/
def numSeconds (ms : Int) : Int := ms.tdiv 1000

/-- `chrono::Duration::num_hours`: whole hours, truncated toward zero. -/
def numHours (ms : Int) : Int := (numSeconds ms).tdiv 3600

/-- `chrono::Duration::num_days`: whole days, truncated toward zero. -/
def numDays (ms : Int) : Int := (numSeconds ms).tdiv 86400

/-- Hour-of-day of an instant (ms since epoch, day-aligned epoch). -/
def hourOfDay (t : Int) : Int := t % 86400000 / 3600000

/-- Minute-of-hour of an instant. -/
def minuteOfDay (t : Int) : Int := t % 3600000 / 60000

/-- `types.rs` `TaskType`. -/
inductive TaskType where
  | Once : TaskType
  | Daily : TaskType
deriving DecidableEq

/-- `types.rs` `TaskData`: the persisted task descriptor.
`target_time` is an instant (ms), `daily_time` a second-of-day. -/
structure TaskData where
  task_type : TaskType
  target_time : Option Int
  daily_time : Option Nat
  enabled : Bool
  created_at : Int
deriving DecidableEq

/-- `types.rs` `TimeInput`: `Duration` carries a span in ms,
`AbsoluteTime` an instant in ms, `DailyTime` a second-of-day. -/
inductive TimeInput where
  | Duration : Int → TimeInput
  | AbsoluteTime : Int → TimeInput
  | DailyTime : Nat → TimeInput
deriving DecidableEq

/-- `types.rs` `CountdownStatus`; `Running` carries the remaining span (ms). -/
inductive CountdownStatus where
  | Idle : CountdownStatus
  | Running : Int → CountdownStatus
  | Finished : CountdownStatus
  | Cancelled : CountdownStatus
  | Error : String → CountdownStatus
deriving DecidableEq

/-- `types.rs` `CountdownUpdate`: the fan-out event variants.
`Progress` carries the remaining span (ms) and the percent value
(`f64` in the source, modelled exactly as `ℚ`). -/
inductive CountdownUpdate where
  | Progress : Int → ℚ → CountdownUpdate
  | Finished : CountdownUpdate
  | Cancelled : CountdownUpdate
  | Paused : CountdownUpdate
  | Resumed : CountdownUpdate
  | TaskCompleted : TaskData → CountdownUpdate
  | Error : String → CountdownUpdate
deriving DecidableEq

/-! ### time_parser.rs -/

/-- `time_parser.rs` `validate`:
`Duration` must have whole seconds in `(0, 24*3600]`; `AbsoluteTime`
must be strictly future with whole hours of the difference at most 24;
`DailyTime` is always valid. -/
def validate (input : TimeInput) (now : Int) : Except String Unit :=
  match input with
  | .Duration ms =>
      if numSeconds ms ≤ 0 then .error "时间间隔必须大于0"
      else if 24 * 3600 < numSeconds ms then .error "时间间隔不能超过24小时"
      else .ok ()
  | .AbsoluteTime t =>
      if t ≤ now then .error "目标时间必须在当前时间之后"
      else if 24 < numHours (t - now) then .error "目标时间不能超过24小时后"
      else .ok ()
  | .DailyTime _ => .ok ()

/-- `time_parser.rs` `validate_time_input`:
`Duration` needs positive whole seconds, at most 365 whole days, and at
least 10 whole seconds; `AbsoluteTime` must be strictly future, at most
365 days ahead, and at least 10 whole seconds ahead; `DailyTime` checks
its clock components. -/
def validate_time_input (input : TimeInput) (now : Int) : Except String Unit :=
  match input with
  | .Duration ms =>
      if numSeconds ms ≤ 0 then .error "持续时间必须大于0"
      else if 365 < numDays ms then .error "持续时间不能超过365天"
      else if numSeconds ms < 10 then .error "持续时间不能少于10秒"
      else .ok ()
  | .AbsoluteTime t =>
      if t ≤ now then .error "绝对时间必须在未来"
      else if now + 365 * 86400000 < t then .error "绝对时间不能超过一年后"
      else if numSeconds (t - now) < 10 then .error "绝对时间必须至少在10秒后"
      else .ok ()
  | .DailyTime tod =>
      if 23 < tod / 3600 ∨ 59 < tod % 3600 / 60 then .error "无效的每日时间格式"
      else .ok ()

/-- The `DailyTime` branch of `get_remaining_seconds`: today's occurrence
of the time-of-day (`today.and_time(time)`), rolled to tomorrow when it
is not strictly future (`target_dt <= now`). -/
def nextDailyFrom (now : Int) (tod : Nat) : Int :=
  let targetToday := now / dayMs * dayMs + (tod : Int) * 1000
  if targetToday ≤ now then targetToday + dayMs else targetToday

/-- `time_parser.rs` `get_remaining_seconds`: whole seconds remaining for
a `TimeInput` at instant `now`.  The `Duration` branch returns the span's
whole seconds verbatim; the other branches clamp at 0. -/
def get_remaining_seconds (input : TimeInput) (now : Int) : Int :=
  match input with
  | .Duration ms => numSeconds ms
  | .AbsoluteTime t => max (numSeconds (t - now)) 0
  | .DailyTime tod => max (numSeconds (nextDailyFrom now tod - now)) 0

/-- The day-segment descriptors of `TIME_DESCRIPTIONS`
(早上/上午/中午/下午/傍晚/晚上/深夜). -/
inductive TimeDescription where
  | zaoShang : TimeDescription
  | shangWu : TimeDescription
  | zhongWu : TimeDescription
  | xiaWu : TimeDescription
  | bangWan : TimeDescription
  | wanShang : TimeDescription
  | shenYe : TimeDescription
deriving DecidableEq

/-- The anchor hour each descriptor maps to in `TIME_DESCRIPTIONS`. -/
def anchorHour : TimeDescription → Nat
  | .zaoShang => 8
  | .shangWu => 10
  | .zhongWu => 12
  | .xiaWu => 14
  | .bangWan => 18
  | .wanShang => 20
  | .shenYe => 23

/-- The hour adjustment in `parse_absolute_time`: with a descriptor
present and a parsed hour ≤ 12, the hour becomes
`(base_hour + hour - 8).max(0).min(23)` (u32 arithmetic; no underflow
since every anchor is ≥ 8). -/
def adjustedHour (desc : Option TimeDescription) (hour : Nat) : Nat :=
  match desc with
  | some d => if hour ≤ 12 then min (max (anchorHour d + hour - 8) 0) 23 else hour
  | none => hour

/-- The absolute instant `parse_absolute_time` builds from a resulting
hour/minute: today at that clock time, rolled to tomorrow if not
strictly future. -/
def absTarget (h minute : Nat) (now : Int) : Int :=
  let target := now / dayMs * dayMs + ((h : Int) * 3600 + (minute : Int) * 60) * 1000
  if target ≤ now then target + dayMs else target

/-- `time_parser.rs` `parse_absolute_time`, after the regex capture stage:
given the optional day-segment descriptor and the parsed hour/minute,
adjust the hour, validate the clock components, and build the instant. -/
def parse_absolute_time (desc : Option TimeDescription) (hour minute : Nat)
    (now : Int) : Except String Int :=
  let h := adjustedHour desc hour
  if 24 ≤ h ∨ 60 ≤ minute then .error "无效的时间"
  else .ok (absTarget h minute now)

/-! ### countdown.rs

The `CountdownManager` and its spawned tick tasks are modelled as an
interleaving transition system.  Shared engine fields live in
`SysState`; each spawned tick task has a `TaskState` with a program
counter marking its suspension points (`loopTop` between iterations,
`pausedWait` blocked in `pause_notify.notified().await`, `done` after
`return`).  The per-run cancellation channel is modelled by a
`chanQueued` flag on each task, and the engine's `cancel_sender`
(`Some`/`None`) by `cancelChan`, the index of the task whose channel the
live sender feeds.  `tokio::sync::Notify` is modelled by a stored-permit
flag: `notify_one` sets the permit, and a task blocked in `pausedWait`
runs its wake-up code when the permit is present, consuming it.
Each action carries the wall-clock instant `now` at which it runs. -/

/-- Program counter of one spawned tick task.  `pausedWait` records the
`pause_start` instant taken when the pause flag was first observed. -/
inductive TaskPC where
  | loopTop : TaskPC
  | pausedWait : Int → TaskPC
  | done : TaskPC
deriving DecidableEq

/-- One spawned tick task: its suspension point, whether its cancellation
channel holds a pending message, and its captured `target_time`. -/
structure TaskState where
  pc : TaskPC
  chanQueued : Bool
  target : Int
deriving DecidableEq

/-- Shared state of one `CountdownManager` plus all tick tasks it ever
spawned and the full sequence of broadcast events. -/
structure SysState where
  status : CountdownStatus
  current_task : Option TaskData
  cancelChan : Option Nat
  is_paused : Bool
  notifyPermit : Bool
  start_timestamp : Int
  paused_duration : Int
  tasks : List TaskState
  events : List CountdownUpdate
deriving DecidableEq

/-- A freshly constructed `CountdownManager`. -/
def initState : SysState :=
  { status := .Idle, current_task := none, cancelChan := none,
    is_paused := false, notifyPermit := false, start_timestamp := 0,
    paused_duration := 0, tasks := [], events := [] }

/-- Broadcast one update (`update_sender.send`; never blocks). -/
def publish (s : SysState) (u : CountdownUpdate) : SysState :=
  { s with events := s.events ++ [u] }

/-- Deliver a message on task `i`'s cancellation channel. -/
def queueCancel (ts : List TaskState) (i : Nat) : List TaskState :=
  match ts[i]? with
  | some t => ts.set i { t with chanQueued := true }
  | none => ts

/-- `countdown.rs` `get_status`. -/
def get_status (s : SysState) : CountdownStatus := s.status

/-- `countdown.rs` `is_active`: the status is `Running`. -/
def is_active (s : SysState) : Bool :=
  match s.status with
  | .Running _ => true
  | _ => false

/-- `countdown.rs` `cancel_countdown`: send on the cancellation channel
if one is wired, drop the sender, set the status to `Cancelled`.  It
publishes nothing and does not touch `pause_notify`. -/
def cancel_countdown (s : SysState) : SysState :=
  let s1 :=
    match s.cancelChan with
    | some i => { s with tasks := queueCancel s.tasks i }
    | none => s
  { s1 with cancelChan := none, status := .Cancelled }

/-- `countdown.rs` `pause_countdown`: effective only while `Running` and
not already paused; sets the atomic flag and publishes `Paused`. -/
def pause_countdown (s : SysState) : SysState :=
  if is_active s && !s.is_paused then
    publish { s with is_paused := true } .Paused
  else s

/-- `countdown.rs` `resume_countdown`: effective only while `Running` and
paused; clears the flag, calls `pause_notify.notify_one()` (modelled as
storing a permit), and publishes `Resumed`. -/
def resume_countdown (s : SysState) : SysState :=
  if is_active s && s.is_paused then
    publish { s with is_paused := false, notifyPermit := true } .Resumed
  else s

/-- `countdown.rs` `calculate_progress`: the `f64` arithmetic is modelled
exactly over `ℚ`; `(progress * 100.0).min(100.0).max(0.0)`. -/
def calculate_progress (start_time target_time current_time : Int) : ℚ :=
  let total_duration := numSeconds (target_time - start_time)
  let elapsed_duration := numSeconds (current_time - start_time)
  if total_duration ≤ 0 then 100
  else max (min ((elapsed_duration : ℚ) / (total_duration : ℚ) * 100) 100) 0

/-- The percent value the progress branch of the tick loop publishes:
`calculate_progress(start_time, adjusted_target, now)` with
`start_time = Local::now() - (adjusted_target - target_time)`. -/
def progressBranchValue (target paused_duration now : Int) : ℚ :=
  let adjusted_target := target + paused_duration
  let start_time := now - (adjusted_target - target)
  calculate_progress start_time adjusted_target now

/-- The events the finish branch publishes: `Finished`, then
`TaskCompleted` when the engine's shared `current_task` is `Some`. -/
def finishEvents (ct : Option TaskData) : List CountdownUpdate :=
  [.Finished] ++ (match ct with
    | some t => [.TaskCompleted t]
    | none => [])

/-- One scheduling step of tick task `i` at instant `now`: either the
wake-up from `pause_notify` (enabled only when a permit is present) or
one full loop iteration from the loop top.  A task at `pausedWait`
without a permit, or at `done`, cannot step. -/
def taskStep (s : SysState) (i : Nat) (now : Int) : SysState :=
  match s.tasks[i]? with
  | none => s
  | some t =>
    match t.pc with
    | .done => s
    | .pausedWait pause_start =>
        if s.notifyPermit then
          { s with notifyPermit := false,
                   paused_duration := s.paused_duration + (now - pause_start),
                   tasks := s.tasks.set i { t with pc := .loopTop } }
        else s
    | .loopTop =>
        if t.chanQueued then
          publish { s with status := .Cancelled,
                           tasks := s.tasks.set i { t with pc := .done, chanQueued := false } }
            .Cancelled
        else if s.is_paused then
          { s with tasks := s.tasks.set i { t with pc := .pausedWait now } }
        else
          let adjusted_target := t.target + s.paused_duration
          let remaining := adjusted_target - now
          if numSeconds remaining ≤ 0 then
            let s1 := { s with status := .Finished,
                               tasks := s.tasks.set i { t with pc := .done } }
            { s1 with events := s1.events ++ finishEvents s1.current_task }
          else
            publish { s with status := .Running remaining }
              (.Progress remaining (progressBranchValue t.target s.paused_duration now))

/-- The `InvalidTarget` message of `start_countdown_internal`. -/
def invalidTargetMsg : String := "目标时间必须在当前时间之后"

/-- `countdown.rs` `start_countdown_internal`: reject a non-future
target, else cancel any prior run, reset the pause flag / start
timestamp / pause accumulator, wire a fresh cancellation channel, and
spawn a new tick task.  The descriptor parameter is unused in the
source (`_task`). -/
def start_countdown_internal (s : SysState) (target now : Int)
    (_task : Option TaskData) : SysState × Except String Unit :=
  if target ≤ now then (s, .error invalidTargetMsg)
  else
    let s1 := cancel_countdown s
    let s2 := { s1 with
      is_paused := false,
      start_timestamp := now,
      paused_duration := 0,
      cancelChan := some s1.tasks.length,
      tasks := s1.tasks ++ [{ pc := .loopTop, chanQueued := false, target := target }] }
    (s2, .ok ())

/-- `countdown.rs` `start_countdown`: start without a descriptor. -/
def start_countdown (s : SysState) (target now : Int) : SysState × Except String Unit :=
  start_countdown_internal s target now none

/-- The daily-occurrence computation of `start_countdown_from_task`:
today's occurrence, rolled to tomorrow only when strictly past
(`Local::now().naive_local() > target_datetime`). -/
def nextDailyStrict (now : Int) (tod : Nat) : Int :=
  let targetToday := now / dayMs * dayMs + (tod : Int) * 1000
  if targetToday < now then targetToday + dayMs else targetToday

/-- `countdown.rs` `start_countdown_from_task`: compute the target from
the descriptor (stored instant for `Once`, next daily occurrence for
`Daily`), store the descriptor in `current_task`, then run
`start_countdown_internal`.  The `current_task` write happens before the
internal target check. -/
def start_countdown_from_task (s : SysState) (task : TaskData) (now : Int) :
    SysState × Except String Unit :=
  let targetRes : Except String Int :=
    match task.task_type with
    | .Once =>
        match task.target_time with
        | some t => .ok t
        | none => .error "单次任务缺少目标时间"
    | .Daily =>
        match task.daily_time with
        | some tod => .ok (nextDailyStrict now tod)
        | none => .error "每日任务缺少时间设置"
  match targetRes with
  | .error e => (s, .error e)
  | .ok target =>
      let s1 := { s with current_task := some task }
      start_countdown_internal s1 target now (some task)

/-- `countdown.rs` `reset`: `cancel_countdown` then force `Idle`. -/
def reset (s : SysState) : SysState :=
  { cancel_countdown s with status := .Idle }

/-! ### app.rs recovery block -/

/-- `app.rs` `App::new` recovery block: on a loaded descriptor carrying a
stored `target_time`, start the engine with that stored instant if it is
still future (clearing the record if the start fails), else clear the
record.  A record without `target_time` is ignored.  Returns the engine
state and whether the stored record was cleared. -/
def app_recover (s : SysState) (loaded : Option TaskData) (now : Int) :
    SysState × Bool :=
  match loaded with
  | none => (s, false)
  | some task =>
    match task.target_time with
    | none => (s, false)
    | some target =>
      if now < target then
        match start_countdown s target now with
        | (s1, .ok _) => (s1, false)
        | (s1, .error _) => (s1, true)
      else (s, true)

/-! ### Interleaved executions -/

/-- One action of the interleaved system: a scheduling step of tick task
`i`, or one of the engine's control entry points, each at instant `now`. -/
inductive Action where
  | step : Nat → Int → Action
  | cancel : Action
  | pause : Action
  | resume : Action
  | startNew : Int → Int → Action
  | startFromTask : TaskData → Int → Action
deriving DecidableEq

/-- Whether an action is one of the two `start` entry points. -/
def Action.isStart : Action → Bool
  | .startNew _ _ => true
  | .startFromTask _ _ => true
  | _ => false

/-- Apply one action. -/
def applyAct (s : SysState) (a : Action) : SysState :=
  match a with
  | .step i now => taskStep s i now
  | .cancel => cancel_countdown s
  | .pause => pause_countdown s
  | .resume => resume_countdown s
  | .startNew target now => (start_countdown s target now).1
  | .startFromTask task now => (start_countdown_from_task s task now).1

/-- Run a sequence of actions. -/
def run (s : SysState) (acts : List Action) : SysState :=
  acts.foldl applyAct s

/-- Number of live (spawned and not yet exited) tick tasks. -/
def liveTasks (ts : List TaskState) : Nat :=
  (ts.filter (fun t => t.pc ≠ .done)).length

/-- Whether every spawned task is blocked in the pause wait. -/
def allBlocked (ts : List TaskState) : Bool :=
  ts.all (fun t => match t.pc with
    | .pausedWait _ => true
    | _ => false)

/-- Whether every action in a schedule is a non-`start` action. -/
def nonStartActs (acts : List Action) : Bool :=
  acts.all (fun a => !a.isStart)

/-- Modelled from the spec: the percent the spec prescribes for a
`Progress` event — `clamp(elapsed / totalDuration × 100, 0, 100)` with
`elapsed` the non-paused time since the run's start instant and
`totalDuration` the span from the start instant to the pause-adjusted
target.  Used only to compare against `progressBranchValue`. -/
def specPercent (start target paused now : Int) : ℚ :=
  let totalDuration := (target + paused) - start
  let elapsed := (now - start) - paused
  min (max ((elapsed : ℚ) / (totalDuration : ℚ) * 100) 0) 100

/-! ### Concrete scenarios -/

/-- A one-shot task descriptor targeting instant 10000 ms. -/
def onceTask0 : TaskData :=
  { task_type := .Once, target_time := some 10000, daily_time := none,
    enabled := true, created_at := 0 }

/-- A daily task descriptor for 08:00 whose stored target instant (1000 ms)
has long passed. -/
def dailyTask0 : TaskData :=
  { task_type := .Daily, target_time := some 1000, daily_time := some 28800,
    enabled := true, created_at := 0 }

/-- A countdown started for target 10000 ms, ticked once at 1000 ms,
paused, with the tick task then observing the pause flag and blocking in
the pause wait at 2000 ms, and finally cancelled while paused. -/
def pausedCancelledState : SysState :=
  run initState [.startNew 10000 0, .step 0 1000, .pause, .step 0 2000, .cancel]

/-! ## Helper lemmas -/

/-- `num_seconds` of a nonnegative span is nonnegative. -/
theorem numSeconds_nonneg {d : Int} (h : 0 ≤ d) : 0 ≤ numSeconds d :=
  Int.tdiv_nonneg h (by norm_num)

/-- A span with positive `num_seconds` is positive. -/
theorem pos_of_numSeconds_pos {d : Int} (h : 0 < numSeconds d) : 0 < d := by
  by_contra hc
  push_neg at hc
  have h2 : 0 ≤ (-d).tdiv 1000 := Int.tdiv_nonneg (by omega) (by norm_num)
  rw [Int.neg_tdiv] at h2
  have h3 : numSeconds d ≤ 0 := by
    unfold numSeconds
    omega
  omega

/-- Every anchor hour in `TIME_DESCRIPTIONS` is at least 8, so the u32
subtraction in the hour adjustment never underflows. -/
theorem anchorHour_ge_8 (d : TimeDescription) : 8 ≤ anchorHour d := by
  cases d <;> simp [anchorHour]

/-- A valid `start_countdown` returns ok and appends one fresh tick task
to the tasks of the cancelled predecessor state. -/
theorem start_countdown_future (u : SysState) (tgt now : Int) (hn : now < tgt) :
    (start_countdown u tgt now).2 = .ok () ∧
    (start_countdown u tgt now).1.tasks =
      (cancel_countdown u).tasks ++
        [{ pc := .loopTop, chanQueued := false, target := tgt }] := by
  simp only [start_countdown, start_countdown_internal]
  rw [if_neg (by omega)]
  exact ⟨rfl, rfl⟩

/-- The state reached by cancelling a paused countdown, spelled out. -/
theorem pausedCancelledState_eq :
    pausedCancelledState =
      { status := .Cancelled, current_task := none, cancelChan := none,
        is_paused := true, notifyPermit := false, start_timestamp := 0,
        paused_duration := 0,
        tasks := [{ pc := .pausedWait 2000, chanQueued := true, target := 10000 }],
        events := [.Progress 9000 (progressBranchValue 10000 0 1000), .Paused] } := by
  rfl

/-- Every non-`start` action leaves the cancelled-while-paused state
exactly as it is: the tick task is blocked in `pause_notify.notified()`,
`cancel_countdown` has already dropped the sender and never notifies,
`pause_countdown`/`resume_countdown` are no-ops because the status is
`Cancelled` (not `Running`), and a blocked task cannot step without a
notify permit. -/
theorem applyAct_pausedCancelled_fixed (a : Action) (ha : a.isStart = false) :
    applyAct pausedCancelledState a = pausedCancelledState := by
  cases a with
  | startNew target now => simp [Action.isStart] at ha
  | startFromTask task now => simp [Action.isStart] at ha
  | cancel => rfl
  | pause => rfl
  | resume => rfl
  | step i now =>
      rw [pausedCancelledState_eq]
      simp only [applyAct, taskStep]
      cases i with
      | zero => simp
      | succ n => simp

/-! ## Claims -/

/-- Claim C1: cancelling a countdown that is paused — with its tick task blocked
in the pause wait — does NOT make the tick task transition to `Cancelled`,
publish a `Cancelled` event, or exit.  In the concrete cancelled-while-paused
scenario, every subsequent schedule of non-`start` actions (tick-task steps,
`cancel`, `pause`, `resume`) leaves the system state exactly unchanged: the
tick task stays blocked in the pause wait forever and no `Cancelled` event is
ever published.  The cancellation check does precede the pause check at the
loop top, but `cancel_countdown` never signals `pause_notify`, and
`resume_countdown` refuses to (the status is `Cancelled`, not `Running`),
so the blocked task is never woken — contradicting the claim that a paused
run never remains blocked on resume after cancellation. -/
theorem claim_C1_paused_cancel_stuck (acts : List Action)
    (h : nonStartActs acts = true) :
    run pausedCancelledState acts = pausedCancelledState ∧
    allBlocked pausedCancelledState.tasks = true ∧
    CountdownUpdate.Cancelled ∉ pausedCancelledState.events ∧
    pausedCancelledState.status = .Cancelled := by
  refine ⟨?_, by decide, by decide, rfl⟩
  induction acts with
  | nil => rfl
  | cons a rest ih =>
      simp only [nonStartActs, List.all_cons, Bool.and_eq_true,
        Bool.not_eq_true'] at h
      have h1 := applyAct_pausedCancelled_fixed a h.1
      simp only [run, List.foldl_cons, h1]
      exact ih (by simp [nonStartActs, h.2])

/-- Claim C1 witness: a concrete schedule of non-`start` actions after the
cancelled-while-paused scenario. -/
theorem claim_C1_witness :
    nonStartActs [Action.cancel, Action.resume, Action.pause, Action.step 0 9000] = true ∧
    (run pausedCancelledState
        [Action.cancel, Action.resume, Action.pause, Action.step 0 9000] =
          pausedCancelledState ∧
      allBlocked pausedCancelledState.tasks = true ∧
      CountdownUpdate.Cancelled ∉ pausedCancelledState.events ∧
      pausedCancelledState.status = .Cancelled) :=
  ⟨by decide, claim_C1_paused_cancel_stuck
    [Action.cancel, Action.resume, Action.pause, Action.step 0 9000] (by decide)⟩

/-- Claim C2: in a run that was never paused (`paused_duration = 0`), every
`Progress` event carries percent 0, because the progress branch passes
`Local::now() - (adjusted_target - target_time)` — that is, `now` itself
when nothing was paused — as the start time, so the computed elapsed time
is always 0.  The spec's formula (`specPercent`), evaluated with the run's
actual start instant, is nonzero for any genuinely elapsed time, so the
published percent does not equal the claimed
`clamp(elapsed / totalDuration × 100, 0, 100)`. -/
theorem claim_C2_progress_always_zero (start target now : Int)
    (h1 : start < now) (h2 : 0 < numSeconds (target - now)) :
    progressBranchValue target 0 now = 0 ∧
    specPercent start target 0 now ≠ 0 := by
  have htn : now < target := by
    have := pos_of_numSeconds_pos h2
    omega
  constructor
  · simp only [progressBranchValue, calculate_progress, add_zero, sub_self,
      sub_zero]
    rw [if_neg (by omega)]
    norm_num [numSeconds]
  · simp only [specPercent]
    have he : (0 : ℚ) < ((now - start - 0 : Int) : ℚ) := by
      exact_mod_cast (by omega : (0 : Int) < now - start - 0)
    have ht : (0 : ℚ) < ((target + 0 - start : Int) : ℚ) := by
      exact_mod_cast (by omega : (0 : Int) < target + 0 - start)
    have hx : (0 : ℚ) <
        ((now - start - 0 : Int) : ℚ) / ((target + 0 - start : Int) : ℚ) * 100 := by
      positivity
    have hmin : (0 : ℚ) <
        min (max (((now - start - 0 : Int) : ℚ) /
          ((target + 0 - start : Int) : ℚ) * 100) 0) 100 := by
      rw [max_eq_left hx.le]
      exact lt_min hx (by norm_num)
    exact ne_of_gt hmin

/-- Claim C2 witness: a 10-second unpaused run observed at its halfway point
publishes percent 0 where the spec formula gives a nonzero percent. -/
theorem claim_C2_witness :
    (0 : Int) < 5000 ∧ 0 < numSeconds (10000 - 5000) ∧
    (progressBranchValue 10000 0 5000 = 0 ∧ specPercent 0 10000 0 5000 ≠ 0) :=
  ⟨by decide, by decide, claim_C2_progress_always_zero 0 10000 5000 (by decide) (by decide)⟩

/-- Claim C3 counterexample: a saved daily task for 08:00 whose stored target
instant has passed is simply cleared by the recovery block — the engine is
not started with the recomputed next occurrence of the time-of-day (no
tick task is spawned at all), contrary to the claim. -/
theorem claim_C3_counterexample :
    app_recover initState (some dailyTask0) 90000000 = (initState, true) ∧
    (app_recover initState (some dailyTask0) 90000000).1.tasks = [] :=
  ⟨rfl, rfl⟩

/-- Claim C3 amended: at startup the recovery block looks only at the stored
target instant, for daily tasks exactly as for one-shot ones: if the
stored instant is still future the engine is started with that stored
instant (never a recomputed daily occurrence — the behaviour is identical
if the task kind is rewritten to `Once`); if it is past the record is
cleared, daily or not; and a record without a stored target instant is
ignored. -/
theorem claim_C3_amended (s : SysState) (task : TaskData) (now tgt : Int)
    (htt : task.target_time = some tgt) :
    app_recover s (some task) now =
      (if now < tgt then ((start_countdown s tgt now).1, false) else (s, true)) ∧
    app_recover s (some task) now =
      app_recover s (some { task with task_type := TaskType.Once }) now ∧
    app_recover s (some { task with target_time := none }) now = (s, false) ∧
    (start_countdown s tgt now).1.tasks.getLast?.map TaskState.target =
      (if now < tgt then some tgt else s.tasks.getLast?.map TaskState.target) := by
  refine ⟨?_, ?_, rfl, ?_⟩
  · simp only [app_recover, htt]
    split_ifs with hn
    · rcases hs : start_countdown s tgt now with ⟨s1, r⟩
      cases r with
      | ok u => simp
      | error e =>
          have h2 := (start_countdown_future s tgt now hn).1
          rw [hs] at h2
          simp at h2
    · rfl
  · simp only [app_recover, htt]
  · split_ifs with hn
    · rw [(start_countdown_future s tgt now hn).2]
      simp [List.getLast?_concat]
    · simp only [start_countdown, start_countdown_internal]
      rw [if_pos (by omega)]

/-- Claim C3 witness: recovering `dailyTask0` (stored target 1000 ms) at
now = 5000 ms clears the record. -/
theorem claim_C3_witness :
    dailyTask0.target_time = some 1000 ∧
    (app_recover initState (some dailyTask0) 5000 =
        (if (5000 : Int) < 1000 then ((start_countdown initState 1000 5000).1, false)
         else (initState, true)) ∧
      app_recover initState (some dailyTask0) 5000 =
        app_recover initState (some { dailyTask0 with task_type := TaskType.Once }) 5000 ∧
      app_recover initState (some { dailyTask0 with target_time := none }) 5000 =
        (initState, false) ∧
      (start_countdown initState 1000 5000).1.tasks.getLast?.map TaskState.target =
        (if (5000 : Int) < 1000 then some 1000
         else initState.tasks.getLast?.map TaskState.target)) :=
  ⟨rfl, claim_C3_amended initState dailyTask0 5000 1000 rfl⟩

/-- Claim C4 counterexample: `get_remaining_seconds` returns the stored span of
a `Duration` input verbatim, so for a negative duration it returns a
negative value, contrary to the claim that it is never negative for every
`TimeInput` value. -/
theorem claim_C4_counterexample :
    ¬ (0 ≤ get_remaining_seconds (TimeInput.Duration (-5000)) 0) := by
  decide

/-- Claim C4 amended: `get_remaining_seconds` is nonnegative for every
`AbsoluteTime` and `DailyTime` input (those branches clamp at 0) and for
every `Duration` input with a nonnegative span (returned verbatim); for a
`DailyTime` input the result is the whole seconds until the next
occurrence of the time-of-day, which is strictly future, at most one day
away, and lies at the given second-of-day. -/
theorem claim_C4_amended (ms t : Int) (tod : Nat) (now : Int)
    (hms : 0 ≤ ms) (htod : tod < 86400) :
    0 ≤ get_remaining_seconds (.Duration ms) now ∧
    0 ≤ get_remaining_seconds (.AbsoluteTime t) now ∧
    0 ≤ get_remaining_seconds (.DailyTime tod) now ∧
    now < nextDailyFrom now tod ∧
    nextDailyFrom now tod ≤ now + 86400000 ∧
    nextDailyFrom now tod % 86400000 = (tod : Int) * 1000 ∧
    get_remaining_seconds (.DailyTime tod) now =
      numSeconds (nextDailyFrom now tod - now) := by
  have hlt : now < nextDailyFrom now tod ∧ nextDailyFrom now tod ≤ now + 86400000 ∧
      nextDailyFrom now tod % 86400000 = (tod : Int) * 1000 := by
    simp only [nextDailyFrom, dayMs]
    split <;> omega
  refine ⟨numSeconds_nonneg hms, le_max_right _ _, le_max_right _ _,
    hlt.1, hlt.2.1, hlt.2.2, ?_⟩
  have hpos : 0 ≤ nextDailyFrom now tod - now := by omega
  simp only [get_remaining_seconds]
  exact max_eq_left (numSeconds_nonneg hpos)

/-- Claim C4 witness: a one-minute duration and the 08:00 daily time-of-day at
now = 5 ms. -/
theorem claim_C4_witness :
    (0 : Int) ≤ 60000 ∧ 28800 < 86400 ∧
    (0 ≤ get_remaining_seconds (.Duration 60000) 5 ∧
      0 ≤ get_remaining_seconds (.AbsoluteTime 999) 5 ∧
      0 ≤ get_remaining_seconds (.DailyTime 28800) 5 ∧
      (5 : Int) < nextDailyFrom 5 28800 ∧
      nextDailyFrom 5 28800 ≤ 5 + 86400000 ∧
      nextDailyFrom 5 28800 % 86400000 = (28800 : Int) * 1000 ∧
      get_remaining_seconds (.DailyTime 28800) 5 =
        numSeconds (nextDailyFrom 5 28800 - 5)) :=
  ⟨by decide, by decide, claim_C4_amended 60000 999 28800 5 (by decide) (by decide)⟩

/-- Claim C5 counterexample: starting from a descriptor whose target is already
past does fail with `InvalidTarget`, but the stored task descriptor has
already been overwritten before the check — the engine state does not
keep all its prior values. -/
theorem claim_C5_counterexample :
    (start_countdown_from_task initState onceTask0 20000).2 = .error invalidTargetMsg ∧
    (start_countdown_from_task initState onceTask0 20000).1.current_task = some onceTask0 ∧
    initState.current_task = none :=
  ⟨rfl, rfl, rfl⟩

/-- Claim C5 amended: for a target not strictly in the future, `start_countdown`
fails with `InvalidTarget` and returns the state fully unchanged (no tick
task spawned); `start_countdown_from_task` on a one-shot descriptor with a
past stored target also fails with `InvalidTarget` and leaves the status,
pause flag, start timestamp and pause accumulator unchanged, but has
already overwritten the stored task descriptor with the new one. -/
theorem claim_C5_amended (s : SysState) (target now : Int) (task : TaskData)
    (tgt : Int) (h : target ≤ now) (ht : task.task_type = .Once)
    (htt : task.target_time = some tgt) (h2 : tgt ≤ now) :
    start_countdown s target now = (s, .error invalidTargetMsg) ∧
    start_countdown_from_task s task now =
      ({ s with current_task := some task }, .error invalidTargetMsg) := by
  constructor
  · simp only [start_countdown, start_countdown_internal]
    rw [if_pos h]
  · simp only [start_countdown_from_task, ht, htt, start_countdown_internal]
    rw [if_pos h2]

/-- Claim C5 witness: starting at now = 20000 ms with target 0 ms, and from
`onceTask0` (stored target 10000 ms). -/
theorem claim_C5_witness :
    (0 : Int) ≤ 20000 ∧ onceTask0.task_type = TaskType.Once ∧
    onceTask0.target_time = some 10000 ∧ (10000 : Int) ≤ 20000 ∧
    (start_countdown initState 0 20000 = (initState, .error invalidTargetMsg) ∧
      start_countdown_from_task initState onceTask0 20000 =
        ({ initState with current_task := some onceTask0 }, .error invalidTargetMsg)) :=
  ⟨by decide, rfl, rfl, by decide,
    claim_C5_amended initState 0 20000 onceTask0 10000 (by decide) rfl rfl (by decide)⟩

/-- Claim C6 counterexample: the finish branch reads the engine's shared
`current_task`, which a descriptor-less `start_countdown` does not clear.
After a run started from `onceTask0` is cancelled, a second run started
WITHOUT a descriptor finishes by publishing `TaskCompleted` carrying the
stale `onceTask0` — contrary to the claim that `TaskCompleted` is
published if and only if a descriptor was supplied to that run's start. -/
theorem claim_C6_counterexample :
    (run initState [.startFromTask onceTask0 0, .cancel, .step 0 500,
        .startNew 5000000 1000, .step 1 6000000]).events =
      [.Cancelled, .Finished, .TaskCompleted onceTask0] ∧
    (run initState [.startFromTask onceTask0 0, .cancel, .step 0 500,
        .startNew 5000000 1000, .step 1 6000000]).status = .Finished :=
  ⟨rfl, rfl⟩

/-- Claim C6 amended: when a tick task at its loop top with no pending
cancellation and no pause computes `remaining` with whole seconds ≤ 0, it
transitions the status to `Finished`, publishes exactly the events
`finishEvents current_task` — one `Finished`, followed by one
`TaskCompleted` exactly when the engine's shared `current_task` is `Some`
at finish time (which may be a stale descriptor from an earlier run) —
and exits: its program counter becomes `done` and stepping it again
changes nothing. -/
theorem claim_C6_amended (s : SysState) (i : Nat) (now : Int) (t : TaskState)
    (hi : s.tasks[i]? = some t) (hpc : t.pc = .loopTop) (hq : t.chanQueued = false)
    (hp : s.is_paused = false)
    (hr : numSeconds (t.target + s.paused_duration - now) ≤ 0) :
    (taskStep s i now).status = .Finished ∧
    (taskStep s i now).events = s.events ++ finishEvents s.current_task ∧
    (taskStep s i now).tasks[i]? = some { t with pc := .done } ∧
    taskStep (taskStep s i now) i now = taskStep s i now := by
  have hlen : i < s.tasks.length := by
    rcases List.getElem?_eq_some_iff.mp hi with ⟨hl, _⟩
    exact hl
  have hstep : taskStep s i now =
      { s with status := .Finished, tasks := s.tasks.set i { t with pc := .done },
               events := s.events ++ finishEvents s.current_task } := by
    simp only [taskStep, hi, hpc, hq, hp]
    simp only [Bool.false_eq_true, if_neg, ite_false]
    rw [if_pos hr]
  refine ⟨by rw [hstep], by rw [hstep], ?_, ?_⟩
  · rw [hstep]
    simp [hlen]
  · rw [hstep]
    simp only [taskStep]
    simp [hlen]

/-- Claim C6 witness: a run started for target 1000 ms whose tick task steps at
now = 2000 ms. -/
theorem claim_C6_witness :
    (start_countdown initState 1000 0).1.tasks[0]? =
      some { pc := TaskPC.loopTop, chanQueued := false, target := 1000 } ∧
    numSeconds ((1000 : Int) + 0 - 2000) ≤ 0 ∧
    ((taskStep (start_countdown initState 1000 0).1 0 2000).status = .Finished ∧
      (taskStep (start_countdown initState 1000 0).1 0 2000).events =
        (start_countdown initState 1000 0).1.events ++
          finishEvents (start_countdown initState 1000 0).1.current_task ∧
      (taskStep (start_countdown initState 1000 0).1 0 2000).tasks[0]? =
        some { pc := TaskPC.done, chanQueued := false, target := 1000 } ∧
      taskStep (taskStep (start_countdown initState 1000 0).1 0 2000) 0 2000 =
        taskStep (start_countdown initState 1000 0).1 0 2000) :=
  ⟨rfl, by decide,
    claim_C6_amended (start_countdown initState 1000 0).1 0 2000
      { pc := TaskPC.loopTop, chanQueued := false, target := 1000 }
      rfl rfl rfl rfl (by decide)⟩

/-- Claim C7 counterexample: `validate` accepts a 5-second duration although
5 s is not in the claimed `(10 s, 24 h]` interval, and
`validate_time_input` rejects an absolute instant 5 s ahead although it
is strictly future and within 365 days — so neither validator accepts
exactly the claimed sets. -/
theorem claim_C7_counterexample :
    ¬ ((validate (TimeInput.Duration 5000) 0 = .ok ()) ↔
        (10 < numSeconds 5000 ∧ numSeconds 5000 ≤ 24 * 3600)) ∧
    ¬ ((validate_time_input (TimeInput.AbsoluteTime 5000) 0 = .ok ()) ↔
        ((0 : Int) < 5000 ∧ (5000 : Int) ≤ 0 + 365 * 86400000)) := by
  constructor
  · intro h
    have h1 := h.mp rfl
    have h5 : numSeconds 5000 = 5 := rfl
    omega
  · intro h
    have h1 := h.mpr (by omega)
    simp [validate_time_input, numSeconds] at h1
    revert h1
    decide

/-- Claim C7 amended: `validate` accepts a `Duration` iff its whole seconds lie
in `(0, 24 h]` (no 10-second minimum) and an `AbsoluteTime` iff it is
strictly future with at most 24 whole hours of lead (not 365 days), and
always accepts `DailyTime`; `validate_time_input` accepts a `Duration`
iff its whole seconds are ≥ 10 and its whole days ≤ 365, an
`AbsoluteTime` iff it is strictly future, at most 365 days ahead, AND at
least 10 whole seconds ahead, and accepts every well-formed `DailyTime`. -/
theorem claim_C7_amended (ms t : Int) (tod : Nat) (now : Int)
    (htod : tod < 86400) :
    ((validate (.Duration ms) now = .ok ()) ↔
      0 < numSeconds ms ∧ numSeconds ms ≤ 24 * 3600) ∧
    ((validate (.AbsoluteTime t) now = .ok ()) ↔
      now < t ∧ numHours (t - now) ≤ 24) ∧
    validate (.DailyTime tod) now = .ok () ∧
    ((validate_time_input (.Duration ms) now = .ok ()) ↔
      10 ≤ numSeconds ms ∧ numDays ms ≤ 365) ∧
    ((validate_time_input (.AbsoluteTime t) now = .ok ()) ↔
      now < t ∧ t ≤ now + 365 * 86400000 ∧ 10 ≤ numSeconds (t - now)) ∧
    validate_time_input (.DailyTime tod) now = .ok () := by
  refine ⟨?_, ?_, rfl, ?_, ?_, ?_⟩
  · simp only [validate]
    split_ifs with h1 h2 <;> simp <;> omega
  · simp only [validate]
    split_ifs with h1 h2 <;> simp <;> omega
  · simp only [validate_time_input]
    split_ifs with h1 h2 h3 <;> simp <;> omega
  · simp only [validate_time_input]
    split_ifs with h1 h2 h3 <;> simp <;> omega
  · simp only [validate_time_input]
    rw [if_neg]
    push_neg
    omega

/-- Claim C7 witness: a 30-second duration, an instant 60 s ahead, and the
08:00 time-of-day at now = 0. -/
theorem claim_C7_witness :
    28800 < 86400 ∧
    (((validate (.Duration 30000) 0 = .ok ()) ↔
        0 < numSeconds 30000 ∧ numSeconds 30000 ≤ 24 * 3600) ∧
      ((validate (.AbsoluteTime 60000) 0 = .ok ()) ↔
        (0 : Int) < 60000 ∧ numHours (60000 - 0) ≤ 24) ∧
      validate (.DailyTime 28800) 0 = .ok () ∧
      ((validate_time_input (.Duration 30000) 0 = .ok ()) ↔
        10 ≤ numSeconds 30000 ∧ numDays 30000 ≤ 365) ∧
      ((validate_time_input (.AbsoluteTime 60000) 0 = .ok ()) ↔
        (0 : Int) < 60000 ∧ (60000 : Int) ≤ 0 + 365 * 86400000 ∧
          10 ≤ numSeconds (60000 - 0)) ∧
      validate_time_input (.DailyTime 28800) 0 = .ok ()) :=
  ⟨by decide, claim_C7_amended 30000 60000 28800 0 (by decide)⟩

/-- Claim C8 counterexample: after a second `start` while a first run is live,
both tick tasks are live at once, and the predecessor — not yet torn
down — can still mutate the shared state and publish: stepping it writes
`Cancelled` over the status the new run owns and publishes a `Cancelled`
event, contrary to the claims of at-most-one-live-tick-task and of a
synchronous teardown before the new spawn. -/
theorem claim_C8_counterexample :
    liveTasks (run initState
      [.startNew 10000 0, .step 0 1000, .startNew 100000 2000]).tasks = 2 ∧
    (taskStep (run initState
      [.startNew 10000 0, .step 0 1000, .startNew 100000 2000]) 0 2500).status =
        .Cancelled ∧
    (taskStep (run initState
      [.startNew 10000 0, .step 0 1000, .startNew 100000 2000]) 0 2500).events =
      (run initState
        [.startNew 10000 0, .step 0 1000, .startNew 100000 2000]).events ++
        [.Cancelled] :=
  ⟨rfl, rfl, rfl⟩

/-- Claim C8 amended: `start` tears the predecessor down cooperatively, not
synchronously: it queues a message on the predecessor's cancellation
channel before spawning the new task (so right after `start` both tasks
are live), and the predecessor exits only at its next loop-top check — at
that step it still writes the status (to `Cancelled`) and publishes one
`Cancelled` event, and only then is permanently done. -/
theorem claim_C8_amended (s : SysState) (target now now2 : Int) (i : Nat)
    (t : TaskState) (hc : s.cancelChan = some i) (hi : s.tasks[i]? = some t)
    (hpc : t.pc = .loopTop) (hv : now < target) :
    (start_countdown s target now).1.tasks[i]? = some { t with chanQueued := true } ∧
    (start_countdown s target now).1.tasks.length = s.tasks.length + 1 ∧
    (taskStep (start_countdown s target now).1 i now2).events =
      (start_countdown s target now).1.events ++ [CountdownUpdate.Cancelled] ∧
    (taskStep (start_countdown s target now).1 i now2).tasks[i]? =
      some { t with pc := TaskPC.done, chanQueued := false } ∧
    (taskStep (start_countdown s target now).1 i now2).status =
      CountdownStatus.Cancelled := by
  have hlen : i < s.tasks.length := by
    rcases List.getElem?_eq_some_iff.mp hi with ⟨hl, _⟩
    exact hl
  have htasks : (start_countdown s target now).1.tasks =
      s.tasks.set i { t with chanQueued := true } ++
        [{ pc := .loopTop, chanQueued := false, target := target }] := by
    rw [(start_countdown_future s target now hv).2]
    simp only [cancel_countdown, hc, queueCancel, hi]
  have hget : (start_countdown s target now).1.tasks[i]? =
      some { t with chanQueued := true } := by
    rw [htasks]
    simp [List.getElem?_append, List.length_set, hlen]
  have hstep : taskStep (start_countdown s target now).1 i now2 =
      publish { (start_countdown s target now).1 with
          status := .Cancelled,
          tasks := (start_countdown s target now).1.tasks.set i
            { t with pc := .done, chanQueued := false } } .Cancelled := by
    simp only [taskStep, hget, hpc]
    rfl
  refine ⟨hget, ?_, ?_, ?_, ?_⟩
  · rw [htasks]
    simp
  · rw [hstep]
    simp [publish]
  · rw [hstep]
    simp only [publish]
    rw [htasks]
    rw [List.set_append_left _ _ (by simp [hlen])]
    simp [List.getElem?_append, List.length_set, hlen, List.set_set]
  · rw [hstep]
    rfl

/-- Claim C8 witness: a run for target 10000 ms superseded at now = 2000 ms by
a run for target 100000 ms; the predecessor steps at now = 2500 ms. -/
theorem claim_C8_witness :
    (start_countdown initState 10000 0).1.cancelChan = some 0 ∧
    (start_countdown initState 10000 0).1.tasks[0]? =
      some { pc := TaskPC.loopTop, chanQueued := false, target := 10000 } ∧
    (2000 : Int) < 100000 ∧
    ((start_countdown (start_countdown initState 10000 0).1 100000 2000).1.tasks[0]? =
        some { pc := TaskPC.loopTop, chanQueued := true, target := 10000 } ∧
      (start_countdown (start_countdown initState 10000 0).1 100000 2000).1.tasks.length =
        (start_countdown initState 10000 0).1.tasks.length + 1 ∧
      (taskStep (start_countdown (start_countdown initState 10000 0).1 100000 2000).1
          0 2500).events =
        (start_countdown (start_countdown initState 10000 0).1 100000 2000).1.events ++
          [CountdownUpdate.Cancelled] ∧
      (taskStep (start_countdown (start_countdown initState 10000 0).1 100000 2000).1
          0 2500).tasks[0]? =
        some { pc := TaskPC.done, chanQueued := false, target := 10000 } ∧
      (taskStep (start_countdown (start_countdown initState 10000 0).1 100000 2000).1
          0 2500).status = CountdownStatus.Cancelled) :=
  ⟨rfl, rfl, by decide,
    claim_C8_amended (start_countdown initState 10000 0).1 100000 2000 2500 0
      { pc := TaskPC.loopTop, chanQueued := false, target := 10000 }
      rfl rfl rfl (by decide)⟩

/-- Claim C9: in the absolute-clock stage, with a day-segment descriptor present
and a parsed hour ≤ 12 the resulting hour is
`clamp(anchor_hour + hour - 8, 0, 23)`, an hour > 12 (or no descriptor)
is left unadjusted, and the stage either fails — exactly when the
resulting hour is ≥ 24 or the minute is ≥ 60 — or yields an absolute
instant whose hour-of-day is exactly the resulting hour (and whose
minute is the parsed minute, strictly in the future). -/
theorem claim_C9_hour_adjustment (desc : Option TimeDescription)
    (d : TimeDescription) (hour minute : Nat) (now : Int) :
    ((adjustedHour (some d) hour : Int) =
      if hour ≤ 12 then
        min (max ((anchorHour d : Int) + (hour : Int) - 8) 0) 23
      else (hour : Int)) ∧
    adjustedHour none hour = hour ∧
    (if 24 ≤ adjustedHour desc hour ∨ 60 ≤ minute then
      parse_absolute_time desc hour minute now = .error "无效的时间"
    else
      parse_absolute_time desc hour minute now =
          .ok (absTarget (adjustedHour desc hour) minute now) ∧
        hourOfDay (absTarget (adjustedHour desc hour) minute now) =
          (adjustedHour desc hour : Int) ∧
        minuteOfDay (absTarget (adjustedHour desc hour) minute now) =
          (minute : Int) ∧
        now < absTarget (adjustedHour desc hour) minute now) := by
  have ha := anchorHour_ge_8 d
  refine ⟨?_, rfl, ?_⟩
  · simp only [adjustedHour]
    split_ifs with h
    · push_cast
      omega
    · rfl
  · split_ifs with h
    · simp only [parse_absolute_time]
      rw [if_pos h]
    · push_neg at h
      obtain ⟨hh, hm⟩ := h
      refine ⟨by simp only [parse_absolute_time]; rw [if_neg (by omega)], ?_, ?_, ?_⟩
      · simp only [absTarget, hourOfDay, dayMs]
        split <;> omega
      · simp only [absTarget, minuteOfDay, dayMs]
        split <;> omega
      · simp only [absTarget, dayMs]
        split <;> omega

/-- Claim C10: `pause_countdown` and `resume_countdown` never modify the
status (nor the stored task, tick tasks, pause accumulator, start
timestamp, or channel); they only toggle the atomic paused flag — pause
sets it when the run is active and unpaused, resume clears it and stores
a notify permit when the run is active and paused — and publish the
matching `Paused`/`Resumed` event; consequently `get_status` and
`is_active` are identical before and after either call, so a paused run
is indistinguishable from a ticking one through `status()`. -/
theorem claim_C10_pause_resume_frame (s : SysState) :
    (pause_countdown s).status = s.status ∧
    (resume_countdown s).status = s.status ∧
    get_status (pause_countdown s) = get_status s ∧
    get_status (resume_countdown s) = get_status s ∧
    (pause_countdown s).current_task = s.current_task ∧
    (resume_countdown s).current_task = s.current_task ∧
    (pause_countdown s).tasks = s.tasks ∧
    (resume_countdown s).tasks = s.tasks ∧
    (pause_countdown s).paused_duration = s.paused_duration ∧
    (resume_countdown s).paused_duration = s.paused_duration ∧
    (pause_countdown s).start_timestamp = s.start_timestamp ∧
    (resume_countdown s).start_timestamp = s.start_timestamp ∧
    (pause_countdown s).cancelChan = s.cancelChan ∧
    (resume_countdown s).cancelChan = s.cancelChan ∧
    (pause_countdown s).notifyPermit = s.notifyPermit ∧
    (pause_countdown s).is_paused = (s.is_paused || is_active s) ∧
    (resume_countdown s).is_paused = (s.is_paused && !is_active s) ∧
    (resume_countdown s).notifyPermit =
      (s.notifyPermit || (is_active s && s.is_paused)) ∧
    (pause_countdown s).events =
      s.events ++ (if is_active s && !s.is_paused then [CountdownUpdate.Paused] else []) ∧
    (resume_countdown s).events =
      s.events ++ (if is_active s && s.is_paused then [CountdownUpdate.Resumed] else []) ∧
    is_active (pause_countdown s) = is_active s ∧
    is_active (resume_countdown s) = is_active s := by
  cases hp : s.is_paused <;> cases hst : s.status <;>
    simp [pause_countdown, resume_countdown, publish, get_status, is_active, hp, hst]

end QtShut
